import Mathlib

/-!
# Verification of the pc-classification Hybrid Classification Pipeline

Shallow embedding of the classification core of the repository:

* `model_output_validation` — keyword taxonomy, keyword confidence,
  weighted hybrid confidence, and `fully_validate_model_output`
  (from `src/RecordsClassifierGui/core/model_output_validation.py`).
* `llm_engine` — `classify_with_model`
  (from `src/RecordsClassifierGui/core/llm_engine.py`).
* `classification_engine_fixed` — extension allow/deny lists, the
  heuristic fallback classifier, the integer hybrid confidence policy and
  `classify_file`
  (from `src/RecordsClassifierGui/logic/classification_engine_fixed.py`).
* `file_scanner` — `_categorize_file`
  (from `src/RecordsClassifierGui/logic/file_scanner.py`).

Modelling conventions: Python floats are modelled as rationals (`ℚ`),
Python ints as `Int`/`Nat`; `str.count` is the non-overlapping substring
count; `kw in text` is list-infix on the character lists; `str.strip()`
emptiness is `pyStrip s = ""`.  Filesystem and network effects are passed
in explicitly: a `stat` call that may raise becomes an `Option`, and the
LLM HTTP call becomes an `LLMResponse` value (parsed fields or a request
error).  Wall-clock processing time is abstracted to `0`.
-/

namespace RecordsClassifier

/-- Python `str.count` worker: scan the character list left to right; on a
match advance past the match (non-overlapping), otherwise advance one
character.  `fuel` bounds the scan; `s.length` fuel is always enough. -/
def countAux (pat : List Char) : Nat → List Char → Nat
  | 0, _ => 0
  | _ + 1, [] => 0
  | fuel + 1, c :: rest =>
    if pat.isPrefixOf (c :: rest) then
      1 + countAux pat fuel ((c :: rest).drop pat.length)
    else
      countAux pat fuel rest

/-- Python `s.count(pat)`: number of non-overlapping occurrences of `pat`
in `s` (for the empty pattern Python returns `len(s) + 1`). -/
def pyCount (s pat : String) : Nat :=
  if pat = "" then s.length + 1 else countAux pat.data s.length s.data

/-- Python `pat in s`: substring containment. -/
def pyContains (s pat : String) : Bool :=
  decide (pat.data <:+: s.data)

/-- Python `s.lower()` (ASCII case mapping, as the repository's keyword
matching only involves ASCII). -/
def pyLower (s : String) : String :=
  ⟨s.data.map Char.toLower⟩

/-- Python `s.upper()`. -/
def pyUpper (s : String) : String :=
  ⟨s.data.map Char.toUpper⟩

/-- Python `s.strip()`: remove leading and trailing whitespace. -/
def pyStrip (s : String) : String :=
  ⟨((s.data.dropWhile Char.isWhitespace).reverse.dropWhile Char.isWhitespace).reverse⟩

/-- Python `s[:n]`. -/
def pyTake (s : String) (n : Nat) : String :=
  ⟨s.data.take n⟩

namespace model_output_validation

/-- `SCHEDULE_6_KEYWORDS` from `model_output_validation.py`, as an
association list in the dict's insertion order. -/
def SCHEDULE_6_KEYWORDS : List (String × List String) :=
  [("TRANSITORY", ["transitory", "temporary", "short-term", "routine", "informal"]),
   ("OFFICIAL", ["official", "permanent", "record", "retention", "archival"])]

/-- Python `SCHEDULE_6_KEYWORDS.get(label, [])`. -/
def keywordsFor (label : String) : List String :=
  match SCHEDULE_6_KEYWORDS.find? (fun p => p.1 == label) with
  | some p => p.2
  | none => []

/-- `compute_keyword_confidence(text, classification)`: fraction of the
class's keywords that occur in the lower-cased text. -/
def compute_keyword_confidence (text : String) (classification : String) : ℚ :=
  let keywords := keywordsFor (pyUpper classification)
  if keywords.isEmpty then 0
  else
    ((keywords.countP (fun kw => pyContains (pyLower text) kw) : ℚ)) / (keywords.length : ℚ)

/-- `hybrid_confidence(model_confidence, text, classification, weight_model=0.7)`:
weighted average of model confidence and keyword confidence. -/
def hybrid_confidence (model_confidence : ℚ) (text : String) (classification : String)
    (weight_model : ℚ := 7 / 10) : ℚ :=
  weight_model * model_confidence + (1 - weight_model) * compute_keyword_confidence text classification

end model_output_validation

namespace classification_engine_fixed

/-- `INCLUDE_EXT` from `classification_engine_fixed.py`. -/
def INCLUDE_EXT : List String :=
  [".txt", ".csv", ".docx", ".xlsx", ".pptx", ".pdf", ".html", ".htm", ".md",
   ".rtf", ".odt", ".xml", ".json", ".yaml", ".yml", ".log", ".tsv"]

/-- `EXCLUDE_EXT` from `classification_engine_fixed.py` (note `.log` occurs
here and in `INCLUDE_EXT`). -/
def EXCLUDE_EXT : List String :=
  [".tmp", ".bak", ".old", ".zip", ".rar", ".tar", ".gz", ".7z",
   ".exe", ".dll", ".sys", ".iso", ".dmg", ".apk", ".msi", ".ps1", ".psd1",
   ".psm1", ".db", ".mdb", ".accdb", ".sqlite", ".dbf", ".log", ".swp", ".swo"]

/-- The dictionary returned by `LLMEngine.classify_with_llm` /
`LLMEngine._heuristic_classify` (without the transient `used_fallback`). -/
structure LLMOutcome where
  modelDetermination : String
  confidenceScore : Int
  contextualInsights : String
  deriving DecidableEq, Repr

/-- Total keyword occurrences of a label's keyword list in `text`
(`sum(text.count(kw) for kw in ...)`). -/
def keywordListCount (text : String) (kws : List String) : Nat :=
  (kws.map (fun kw => pyCount text kw)).sum

/-- Python `max(keyword_counts, key=keyword_counts.get)` together with the
winning count: fold keeping the first maximum in iteration order. -/
def bestPair (counts : List (String × Nat)) : String × Nat :=
  match counts with
  | [] => ("", 0)
  | p :: rest => rest.foldl (fun best q => if q.2 > best.2 then q else best) p

/-- `next((kw for kw in KEYWORDS[best_label] if kw in text), "")`. -/
def firstMatch (kws : List String) (text : String) : String :=
  match kws.find? (fun kw => pyContains text kw) with
  | some kw => kw
  | none => ""

/-- `LLMEngine._heuristic_classify(content)`: keyword-frequency fallback.
The outer branch mirrors Python's `if keyword_counts:` — truthiness of the
counts *dict*, which is non-empty whenever the taxonomy is. -/
def heuristic_classify (content : String) : LLMOutcome :=
  let text := pyLower content
  let keyword_counts :=
    model_output_validation.SCHEDULE_6_KEYWORDS.map
      (fun p => (p.1, keywordListCount text p.2))
  if keyword_counts.isEmpty = false then
    let best := bestPair keyword_counts
    let first_match := firstMatch (model_output_validation.keywordsFor best.1) text
    let determination := if best.1 = "OFFICIAL" then "KEEP" else best.1
    let base_conf : Int := 50 + (min (best.2 * 10) 40 : Nat)
    { modelDetermination := determination
      confidenceScore := base_conf
      contextualInsights :=
        if first_match ≠ "" then "Matched keyword \x27" ++ first_match ++ "\x27"
        else "Heuristic fallback" }
  else
    { modelDetermination := "TRANSITORY"
      confidenceScore := 50
      contextualInsights := "No keywords found. Sample: \x27" ++ pyTake text 50 ++ "\x27" }

/-- `ClassificationEngine._hybrid_confidence(llm_score, file_path, content,
determination)`.  The `file_path.stat()` inside the DESTROY branch is the
only statement that can raise; `statOld = none` models that `stat` raised,
taking the `except` clause's simple clamp. -/
def hybrid_confidence (llm_score : Int) (statOld : Option Bool) (content : String)
    (determination : String) : Int :=
  if determination = "DESTROY" then
    match statOld with
    | some old => if old then 100 else min 80 (max 1 llm_score)
    | none => min 100 (max 1 llm_score)
  else if pyStrip content = "" then 0
  else min 100 (max 1 llm_score)

end classification_engine_fixed

/-- `classification_details` of `llm_engine.classify_with_model`'s result. -/
structure ClassificationDetails where
  schedule : String
  keywords_found : List String
  hybrid_confidence : ℚ
  model_confidence : ℚ
  keyword_confidence : ℚ
  validation_passed : Bool
  notes : String
  deriving DecidableEq, Repr

/-- The output record of `llm_engine.classify_with_model` (the JSON-shaped
dict; `validation_error` is present only when validation failed). -/
structure ModelOutput where
  label : String
  score : ℚ
  text : String
  timestamp : String
  source_file : String
  classification_details : ClassificationDetails
  validation_error : Option String := none
  deriving DecidableEq, Repr

namespace model_output_validation

/-- `fully_validate_model_output(output)`: returns `some message` when a
`ValidationError` is raised, `none` when validation passes.  Structural
field/type checks of step 1–2 are enforced by the record type; the numeric
range checks, the recomputed-hybrid-confidence check, the allowed-label
check, the keyword-subset check and the `validation_passed` check are the
checks in source order. -/
def fully_validate_model_output (o : ModelOutput) : Option String :=
  if ¬ (0 ≤ o.score ∧ o.score ≤ 1) then some "score out of range"
  else if ¬ (0 ≤ o.classification_details.hybrid_confidence ∧
             o.classification_details.hybrid_confidence ≤ 1) then
    some "hybrid_confidence out of range"
  else if ¬ (0 ≤ o.classification_details.model_confidence ∧
             o.classification_details.model_confidence ≤ 1) then
    some "model_confidence out of range"
  else if ¬ (0 ≤ o.classification_details.keyword_confidence ∧
             o.classification_details.keyword_confidence ≤ 1) then
    some "keyword_confidence out of range"
  else if 1 / 100 <
      |hybrid_confidence o.classification_details.model_confidence o.text o.label -
        o.classification_details.hybrid_confidence| then
    some "Hybrid confidence mismatch"
  else if ¬ (pyUpper o.label = "TRANSITORY" ∨ pyUpper o.label = "OFFICIAL") then
    some "label not in allowed classes"
  else if ¬ (∀ kw ∈ o.classification_details.keywords_found,
              kw ∈ keywordsFor (pyUpper o.label)) then
    some "keywords_found not subset of class keywords"
  else if 7 / 10 ≤ o.classification_details.hybrid_confidence ∧
      o.classification_details.validation_passed = false then
    some "validation_passed must be True if hybrid_confidence >= 0.7"
  else none

end model_output_validation

namespace llm_engine

/-- `classify_with_model(content, ...)`, success path: the model response
has been parsed into `label`, `score` and `notes`; the function gathers
keyword evidence, computes the weighted hybrid confidence, builds the
record and attaches `validation_error` when `fully_validate_model_output`
raises. -/
def classify_with_model (label : String) (score : ℚ) (notes : String) (content : String)
    (timestamp : String) (source_file : String) : ModelOutput :=
  let text := content
  let keywords_found :=
    (model_output_validation.keywordsFor (pyUpper label)).filter
      (fun kw => pyContains (pyLower text) (pyLower kw))
  let model_confidence := score
  let keyword_confidence := model_output_validation.compute_keyword_confidence text label
  let hybrid_conf := model_output_validation.hybrid_confidence model_confidence text label
  let validation_passed := decide (7 / 10 ≤ hybrid_conf)
  let result : ModelOutput :=
    { label := label, score := score, text := text, timestamp := timestamp
      source_file := source_file
      classification_details :=
        { schedule := "Schedule 6", keywords_found := keywords_found
          hybrid_confidence := hybrid_conf, model_confidence := model_confidence
          keyword_confidence := keyword_confidence
          validation_passed := validation_passed, notes := notes } }
  match model_output_validation.fully_validate_model_output result with
  | some ve => { result with validation_error := some ve }
  | none => result

end llm_engine

namespace classification_engine_fixed

/-- The `ClassificationResult` dataclass. -/
structure ClassificationResult where
  file_name : String
  extension : String
  full_path : String
  last_modified : String
  size_kb : ℚ
  model_determination : String
  confidence_score : Int
  contextual_insights : String
  status : String := "success"
  processing_time_ms : Int := 0
  error_message : String := ""
  deriving DecidableEq, Repr

/-- Result of `file_path.stat()` when it succeeds, as used by
`classify_file`: whether `mtime < now - 6*365 days`, the ISO mtime string,
and the rounded size in KB. -/
structure FileStat where
  mtimeOld : Bool
  mtimeIso : String
  sizeKB : ℚ
  deriving DecidableEq, Repr

/-- Outcome of the Ollama HTTP call inside `classify_with_llm`: either the
three parsed JSON fields, or a request/parse failure (connection refused,
no JSON object, decode error, ...). -/
inductive LLMResponse where
  | ok (classification : String) (confidence : ℚ) (rationale : String)
  | requestError (msg : String)
  deriving DecidableEq, Repr

/-- Python `int(x)` on a rational: truncation toward zero. -/
def pyInt (q : ℚ) : Int :=
  if 0 ≤ q then ⌊q⌋ else -⌊-q⌋

/-- `LLMEngine.classify_with_llm`: on a completed call the three fields are
validated against the closed contract (label in taxonomy, confidence in
[0,1], non-blank rationale); any request failure or contract violation
falls through to `_heuristic_classify` with `used_fallback = true`.  The
returned `Bool` is the `used_fallback` flag. -/
def classify_with_llm (resp : LLMResponse) (content : String) : LLMOutcome × Bool :=
  match resp with
  | .ok cls conf rat =>
    if (cls = "TRANSITORY" ∨ cls = "DESTROY" ∨ cls = "ARCHIVE" ∨ cls = "KEEP") ∧
        (0 ≤ conf ∧ conf ≤ 1) ∧ pyStrip rat ≠ "" then
      ({ modelDetermination := cls
         confidenceScore := pyInt (conf * 100)
         contextualInsights := rat }, false)
    else
      (heuristic_classify content, true)
  | .requestError _ => (heuristic_classify content, true)

/-- The effectful environment of one `classify_file` call: the file-path
derived strings, the first `stat` (`none` = raised), the text returned by
`_read_file_content` (already `""` on a read failure), the LLM response,
and the second `stat` performed inside `_hybrid_confidence`. -/
structure Env where
  path_name : String
  path_suffix : String
  resolved : String
  stat : Option FileStat
  statErrMsg : String
  content : String
  llmResp : LLMResponse
  hybridStatOld : Option Bool
  nowIso : String

/-- `ClassificationEngine.classify_file(file_path, ..., run_mode)`.

Stage order as in the source: `stat` (raising lands in the outer `except`
clause), excluded-extension check, inclusion-list check, content read,
`run_mode == "Last Modified"` branch, the automatic-DESTROY age check, and
finally the LLM/heuristic path with hybrid confidence.  Wall-clock
processing time is abstracted to 0; in the error path the fallback re-stat
is modelled as also failing (mtime = now, size 0). -/
def classify_file (env : Env) (run_mode : String) : ClassificationResult :=
  match env.stat with
  | none =>
    let msg := env.statErrMsg
    let msg2 :=
      if pyContains msg "await" ∧ pyContains msg "expression" then
        msg ++ " - asynchronous call failed"
      else msg
    { file_name := env.path_name
      extension := env.path_suffix
      full_path := env.resolved
      last_modified := env.nowIso
      size_kb := 0
      model_determination := "ERROR"
      confidence_score := 0
      contextual_insights := "Processing error: " ++ pyTake msg2 200
      status := "error"
      processing_time_ms := 0
      error_message := msg2 }
  | some st =>
    let extension := pyLower env.path_suffix
    if EXCLUDE_EXT.contains extension then
      { file_name := env.path_name, extension := extension, full_path := env.resolved
        last_modified := st.mtimeIso, size_kb := st.sizeKB
        model_determination := "SKIP", confidence_score := 100
        contextual_insights := "Excluded file type: " ++ extension
        status := "skipped", processing_time_ms := 0 }
    else if ¬ INCLUDE_EXT.contains extension then
      { file_name := env.path_name, extension := extension, full_path := env.resolved
        last_modified := st.mtimeIso, size_kb := st.sizeKB
        model_determination := "SKIP", confidence_score := 100
        contextual_insights := "Unsupported file type: " ++ extension
        status := "skipped", processing_time_ms := 0 }
    else
      let content := env.content
      if run_mode = "Last Modified" then
        if st.mtimeOld then
          { file_name := env.path_name, extension := extension, full_path := env.resolved
            last_modified := st.mtimeIso, size_kb := st.sizeKB
            model_determination := "DESTROY", confidence_score := 100
            contextual_insights := "Last Modified date > 6 years"
            status := "Marked for Destruction", processing_time_ms := 0 }
        else
          { file_name := env.path_name, extension := extension, full_path := env.resolved
            last_modified := st.mtimeIso, size_kb := st.sizeKB
            model_determination := "SKIP", confidence_score := 100
            contextual_insights := "File newer than 6 years"
            status := "skipped", processing_time_ms := 0 }
      else if st.mtimeOld then
        { file_name := env.path_name, extension := env.path_suffix, full_path := env.resolved
          last_modified := st.mtimeIso, size_kb := st.sizeKB
          model_determination := "DESTROY", confidence_score := 100
          contextual_insights := "Older than 6 years - automatic destroy"
          status := "success", processing_time_ms := 0 }
      else
        let pair := classify_with_llm env.llmResp content
        let confidence_score :=
          hybrid_confidence pair.1.confidenceScore env.hybridStatOld content
            pair.1.modelDetermination
        { file_name := env.path_name, extension := env.path_suffix, full_path := env.resolved
          last_modified := st.mtimeIso, size_kb := st.sizeKB
          model_determination := pair.1.modelDetermination
          confidence_score := confidence_score
          contextual_insights := pair.1.contextualInsights
          status := if pair.2 then "fallback" else "success"
          processing_time_ms := 0 }

end classification_engine_fixed

namespace file_scanner

/-- `EXCLUDE_EXT` from `file_scanner.py` (shorter than the engine's list:
no `.sqlite`, `.dbf`, `.log`, `.swp`, `.swo`). -/
def EXCLUDE_EXT : List String :=
  [".tmp", ".bak", ".old", ".zip", ".rar", ".tar", ".gz", ".7z",
   ".exe", ".dll", ".sys", ".iso", ".dmg", ".apk", ".msi", ".ps1", ".psd1",
   ".psm1", ".db", ".mdb", ".accdb"]

/-- `INCLUDE_EXT` from `file_scanner.py` (same as the engine's). -/
def INCLUDE_EXT : List String := classification_engine_fixed.INCLUDE_EXT

/-- `FileScanner._categorize_file(modified_time, extension)`: age check
first, then the exclusion list, then the inclusion list.
`mtimeOld` is `modified_time < self.destroy_threshold`. -/
def categorize_file (mtimeOld : Bool) (extension : String) : String × String :=
  if mtimeOld then ("destroy", "Older than 6 years - automatic destroy")
  else if EXCLUDE_EXT.contains extension then
    ("skip", "Excluded file type: " ++ extension)
  else if ¬ INCLUDE_EXT.contains extension then
    ("skip", "Unsupported file type: " ++ extension)
  else ("analyze", "Supported file type within retention period")

end file_scanner

/-! ## Supporting lemmas -/

theorem countAux_pos_iff (pat : List Char) (hpat : pat ≠ []) :
    ∀ (fuel : Nat) (l : List Char), l.length ≤ fuel →
      (0 < countAux pat fuel l ↔ pat <:+: l) := by
  intro fuel
  induction fuel with
  | zero =>
    intro l hl
    have hnil : l = [] := List.length_eq_zero.mp (Nat.le_zero.mp hl)
    subst hnil
    simp [countAux, List.infix_nil, hpat]
  | succ n ih =>
    intro l hl
    cases l with
    | nil => simp [countAux, List.infix_nil, hpat]
    | cons c rest =>
      simp only [countAux]
      by_cases hpre : pat.isPrefixOf (c :: rest) = true
      · simp only [hpre, if_true]
        constructor
        · intro _
          have hpre2 : pat <+: c :: rest := by
            rw [← List.isPrefixOf_iff_prefix]
            exact hpre
          exact List.IsPrefix.isInfix hpre2
        · intro _
          omega
      · simp only [hpre, if_neg (by decide : ¬ (false = true))]
        rw [ih rest (by simpa using Nat.le_of_succ_le_succ hl)]
        rw [List.infix_cons_iff]
        constructor
        · exact Or.inr
        · rintro (hp | hi)
          · have hp2 : pat.isPrefixOf (c :: rest) = true := by
              rw [ List.isPrefixOf_iff_prefix]
              exact hp
            exact absurd hp2 hpre
          · exact hi

theorem data_ne_nil_of_ne_empty (s : String) (h : s ≠ "") : s.data ≠ [] := by
  intro hd
  apply h
  cases s
  simp_all

theorem pyCount_pos_iff (s pat : String) (hpat : pat ≠ "") :
    0 < pyCount s pat ↔ pat.data <:+: s.data := by
  rw [pyCount, if_neg hpat]
  exact countAux_pos_iff pat.data (data_ne_nil_of_ne_empty pat hpat) s.length s.data
    (Nat.le_of_eq rfl)

theorem pyCount_eq_zero_iff (s pat : String) (hpat : pat ≠ "") :
    pyCount s pat = 0 ↔ ¬ pat.data <:+: s.data := by
  rw [← pyCount_pos_iff s pat hpat]
  omega

theorem pyContains_true_iff (s pat : String) :
    pyContains s pat = true ↔ pat.data <:+: s.data := by
  simp [pyContains]

theorem pyContains_false_iff (s pat : String) :
    pyContains s pat = false ↔ ¬ pat.data <:+: s.data := by
  simp [pyContains]

namespace classification_engine_fixed

theorem keywordListCount_eq_zero_iff (text : String) (kws : List String) :
    keywordListCount text kws = 0 ↔ ∀ kw ∈ kws, pyCount text kw = 0 := by
  unfold keywordListCount
  induction kws with
  | nil => simp
  | cons k ks ih => simp [ih]

theorem keywordListCount_pos_exists (text : String) (kws : List String)
    (h : 0 < keywordListCount text kws) : ∃ kw ∈ kws, 0 < pyCount text kw := by
  by_contra hc
  push_neg at hc
  have hz : keywordListCount text kws = 0 :=
    (keywordListCount_eq_zero_iff _ _).mpr (fun kw hkw => Nat.le_zero.mp (hc kw hkw))
  omega

theorem bestPair_two (a b : String) (m n : Nat) :
    bestPair [(a, m), (b, n)] = if m < n then (b, n) else (a, m) := by
  simp [bestPair]

theorem firstMatch_eq_empty (kws : List String) (text : String)
    (h : ∀ kw ∈ kws, pyContains text kw = false) : firstMatch kws text = "" := by
  unfold firstMatch
  rw [List.find?_eq_none.mpr (fun kw hkw => by simp [h kw hkw])]

theorem firstMatch_mem (kws : List String) (text : String)
    (h : ∃ kw ∈ kws, pyContains text kw = true) :
    firstMatch kws text ∈ kws ∧ pyContains text (firstMatch kws text) = true := by
  obtain ⟨kw, hmem, hkw⟩ := h
  have hsome : (kws.find? (fun kw => pyContains text kw)).isSome :=
    List.find?_isSome.mpr ⟨kw, hmem, hkw⟩
  unfold firstMatch
  cases hfind : kws.find? (fun kw => pyContains text kw) with
  | none => rw [hfind] at hsome; simp at hsome
  | some k =>
    exact ⟨List.mem_of_find?_eq_some hfind, List.find?_some hfind⟩

theorem heuristic_classify_spec (content : String) :
    heuristic_classify content =
      (if keywordListCount (pyLower content) (model_output_validation.keywordsFor "TRANSITORY") <
          keywordListCount (pyLower content) (model_output_validation.keywordsFor "OFFICIAL")
       then
        { modelDetermination := "KEEP"
          confidenceScore := 50 + (min (keywordListCount (pyLower content)
              (model_output_validation.keywordsFor "OFFICIAL") * 10) 40 : Nat)
          contextualInsights :=
            if firstMatch (model_output_validation.keywordsFor "OFFICIAL") (pyLower content) ≠ "" then
              "Matched keyword \x27" ++
                firstMatch (model_output_validation.keywordsFor "OFFICIAL") (pyLower content) ++ "\x27"
            else "Heuristic fallback" }
       else
        { modelDetermination := "TRANSITORY"
          confidenceScore := 50 + (min (keywordListCount (pyLower content)
              (model_output_validation.keywordsFor "TRANSITORY") * 10) 40 : Nat)
          contextualInsights :=
            if firstMatch (model_output_validation.keywordsFor "TRANSITORY") (pyLower content) ≠ "" then
              "Matched keyword \x27" ++
                firstMatch (model_output_validation.keywordsFor "TRANSITORY") (pyLower content) ++ "\x27"
            else "Heuristic fallback" }) := by
  have hT : model_output_validation.keywordsFor "TRANSITORY" =
      ["transitory", "temporary", "short-term", "routine", "informal"] := rfl
  have hO : model_output_validation.keywordsFor "OFFICIAL" =
      ["official", "permanent", "record", "retention", "archival"] := rfl
  unfold heuristic_classify
  rw [hT, hO]
  simp only [model_output_validation.SCHEDULE_6_KEYWORDS, List.map_cons, List.map_nil]
  rw [bestPair_two]
  by_cases h : keywordListCount (pyLower content)
      ["transitory", "temporary", "short-term", "routine", "informal"] <
      keywordListCount (pyLower content)
      ["official", "permanent", "record", "retention", "archival"]
  · simp [h, hO]
  · simp [h, hT]

theorem schedule6_keywords_ne_empty :
    (∀ kw ∈ model_output_validation.keywordsFor "TRANSITORY", kw ≠ "") ∧
    (∀ kw ∈ model_output_validation.keywordsFor "OFFICIAL", kw ≠ "") := by
  decide

theorem firstMatch_of_count_pos (text : String) (kws : List String)
    (hne : ∀ kw ∈ kws, kw ≠ "") (h : 0 < keywordListCount text kws) :
    firstMatch kws text ∈ kws ∧ pyContains text (firstMatch kws text) = true ∧
      firstMatch kws text ≠ "" := by
  obtain ⟨kw, hkw, hpos⟩ := keywordListCount_pos_exists text kws h
  have hc : pyContains text kw = true := by
    rw [pyContains_true_iff]
    exact (pyCount_pos_iff _ _ (hne kw hkw)).mp hpos
  obtain ⟨hmem, hcontains⟩ := firstMatch_mem kws text ⟨kw, hkw, hc⟩
  exact ⟨hmem, hcontains, hne _ hmem⟩

theorem firstMatch_of_count_zero (text : String) (kws : List String)
    (hne : ∀ kw ∈ kws, kw ≠ "") (h : keywordListCount text kws = 0) :
    firstMatch kws text = "" := by
  apply firstMatch_eq_empty
  intro kw hkw
  rw [pyContains_false_iff]
  exact (pyCount_eq_zero_iff _ _ (hne kw hkw)).mp
    ((keywordListCount_eq_zero_iff _ _).mp h kw hkw)

theorem hybrid_confidence_bounds (s : Int) (o : Option Bool) (c d : String) :
    0 ≤ hybrid_confidence s o c d ∧ hybrid_confidence s o c d ≤ 100 := by
  unfold hybrid_confidence
  rcases o with _ | old
  · split_ifs <;> (try simp only [min_def, max_def]) <;> (try split_ifs) <;> omega
  · cases old <;> split_ifs <;> (try simp only [min_def, max_def]) <;> (try split_ifs) <;>
      omega

theorem classify_with_llm_fallback (resp : LLMResponse) (content : String)
    (h : (classify_with_llm resp content).2 = true) :
    (classify_with_llm resp content).1 = heuristic_classify content := by
  cases resp with
  | ok cls conf rat =>
    simp only [classify_with_llm] at h ⊢
    split_ifs at h ⊢ <;> simp_all
  | requestError m => rfl

theorem heuristic_classify_determination (content : String) :
    (heuristic_classify content).modelDetermination = "KEEP" ∨
    (heuristic_classify content).modelDetermination = "TRANSITORY" := by
  rw [heuristic_classify_spec]
  split_ifs <;> simp

end classification_engine_fixed

/-! ## Claim theorems -/

namespace classification_engine_fixed

/-- C3: for a raw DESTROY label, `_hybrid_confidence` forces exactly 100
when the file is past the 6-year retention threshold; otherwise it caps the
confidence at 80 and never yields 100, for every raw confidence value. -/
theorem C3_destroy_confidence (llm_score : Int) (old : Bool) (content : String) :
    (old = true → hybrid_confidence llm_score (some old) content "DESTROY" = 100) ∧
    (old = false →
      hybrid_confidence llm_score (some old) content "DESTROY" ≤ 80 ∧
      hybrid_confidence llm_score (some old) content "DESTROY" ≠ 100) := by
  unfold hybrid_confidence
  constructor <;> intro h <;> subst h <;>
    simp only [if_pos rfl, if_true, if_false, Bool.false_eq_true, min_def, max_def] <;>
    split_ifs <;> omega

/-- Witness for C3 at a concrete raw confidence of 95. -/
theorem C3_destroy_confidence_witness :
    hybrid_confidence 95 (some true) "x" "DESTROY" = 100 ∧
    (hybrid_confidence 95 (some false) "x" "DESTROY" ≤ 80 ∧
     hybrid_confidence 95 (some false) "x" "DESTROY" ≠ 100) :=
  ⟨(C3_destroy_confidence 95 true "x").1 rfl, (C3_destroy_confidence 95 false "x").2 rfl⟩

/-- C4 counterexample: a DESTROY determination on a file that is not past
retention, with empty extracted content, is *not* forced to 0 — the
DESTROY branch runs first and clamps the raw score into [1,80]. -/
theorem C4_empty_content_counterexample :
    hybrid_confidence 50 (some false) "" "DESTROY" = 50 ∧
    hybrid_confidence 50 (some false) "" "DESTROY" ≠ 0 ∧
    pyStrip "" = "" := by
  decide

/-- C4 amended: for every determination *other than* DESTROY, empty or
whitespace-only content forces the hybrid confidence to 0, regardless of
the file's age; a DESTROY determination is handled by the earlier DESTROY
branch and never reaches the emptiness check. -/
theorem C4_empty_content_amended (llm_score : Int) (statOld : Option Bool)
    (content : String) (det : String)
    (hdet : det ≠ "DESTROY") (hc : pyStrip content = "") :
    hybrid_confidence llm_score statOld content det = 0 := by
  unfold hybrid_confidence
  rw [if_neg hdet, if_pos hc]

/-- Witness for the amended C4 at a concrete KEEP determination. -/
theorem C4_empty_content_amended_witness :
    hybrid_confidence 50 (some false) "" "KEEP" = 0 :=
  C4_empty_content_amended 50 (some false) "" "KEEP" (by decide) rfl

/-- C5 counterexample: on content with no keyword matches the heuristic
does return TRANSITORY with confidence 50, but the rationale is the fixed
string "Heuristic fallback", not a rationale quoting a content snippet —
the snippet branch is dead code because the counts dict is never empty. -/
theorem C5_heuristic_counterexample :
    (heuristic_classify "xyz").modelDetermination = "TRANSITORY" ∧
    (heuristic_classify "xyz").confidenceScore = 50 ∧
    (heuristic_classify "xyz").contextualInsights = "Heuristic fallback" ∧
    (heuristic_classify "xyz").contextualInsights ≠
      "No keywords found. Sample: \x27xyz\x27" := by
  decide

/-- C5 amended: the heuristic counts each label's keyword occurrences in
the lower-cased content and keeps the first label with the highest count
(OFFICIAL is reported as KEEP); confidence is `50 + min(count*10, 40)`,
within [50,90]; with matches the rationale names the first matched keyword
of the winning label; with no matches at all the result is TRANSITORY with
confidence 50 and the fixed rationale "Heuristic fallback". -/
theorem C5_heuristic_amended (content : String) :
    (50 ≤ (heuristic_classify content).confidenceScore ∧
      (heuristic_classify content).confidenceScore ≤ 90) ∧
    (keywordListCount (pyLower content) (model_output_validation.keywordsFor "TRANSITORY") = 0 ∧
     keywordListCount (pyLower content) (model_output_validation.keywordsFor "OFFICIAL") = 0 →
      heuristic_classify content =
        { modelDetermination := "TRANSITORY", confidenceScore := 50,
          contextualInsights := "Heuristic fallback" }) ∧
    (keywordListCount (pyLower content) (model_output_validation.keywordsFor "TRANSITORY") <
     keywordListCount (pyLower content) (model_output_validation.keywordsFor "OFFICIAL") →
      (heuristic_classify content).modelDetermination = "KEEP" ∧
      (heuristic_classify content).confidenceScore = 50 +
        (min (keywordListCount (pyLower content)
          (model_output_validation.keywordsFor "OFFICIAL") * 10) 40 : Nat) ∧
      (heuristic_classify content).contextualInsights =
        "Matched keyword \x27" ++
          firstMatch (model_output_validation.keywordsFor "OFFICIAL") (pyLower content) ++
          "\x27" ∧
      firstMatch (model_output_validation.keywordsFor "OFFICIAL") (pyLower content) ∈
        model_output_validation.keywordsFor "OFFICIAL" ∧
      pyContains (pyLower content)
        (firstMatch (model_output_validation.keywordsFor "OFFICIAL") (pyLower content)) = true) ∧
    (keywordListCount (pyLower content) (model_output_validation.keywordsFor "OFFICIAL") ≤
     keywordListCount (pyLower content) (model_output_validation.keywordsFor "TRANSITORY") ∧
     0 < keywordListCount (pyLower content) (model_output_validation.keywordsFor "TRANSITORY") →
      (heuristic_classify content).modelDetermination = "TRANSITORY" ∧
      (heuristic_classify content).confidenceScore = 50 +
        (min (keywordListCount (pyLower content)
          (model_output_validation.keywordsFor "TRANSITORY") * 10) 40 : Nat) ∧
      (heuristic_classify content).contextualInsights =
        "Matched keyword \x27" ++
          firstMatch (model_output_validation.keywordsFor "TRANSITORY") (pyLower content) ++
          "\x27" ∧
      firstMatch (model_output_validation.keywordsFor "TRANSITORY") (pyLower content) ∈
        model_output_validation.keywordsFor "TRANSITORY" ∧
      pyContains (pyLower content)
        (firstMatch (model_output_validation.keywordsFor "TRANSITORY") (pyLower content)) = true) := by
  rw [heuristic_classify_spec]
  refine ⟨?_, ?_, ?_, ?_⟩
  · split_ifs <;> simp only [LLMOutcome.confidenceScore] <;>
      (have hmO := Nat.min_le_right (keywordListCount (pyLower content)
          (model_output_validation.keywordsFor "OFFICIAL") * 10) 40
       have hmT := Nat.min_le_right (keywordListCount (pyLower content)
          (model_output_validation.keywordsFor "TRANSITORY") * 10) 40
       constructor <;> omega)
  · rintro ⟨hT, hO⟩
    rw [if_neg (by omega)]
    have hfm : firstMatch (model_output_validation.keywordsFor "TRANSITORY") (pyLower content) = "" :=
      firstMatch_of_count_zero _ _ schedule6_keywords_ne_empty.1 hT
    simp [hfm, hT]
  · intro h
    rw [if_pos h]
    have hpos : 0 < keywordListCount (pyLower content)
        (model_output_validation.keywordsFor "OFFICIAL") := by omega
    obtain ⟨hmem, hcont, hne⟩ :=
      firstMatch_of_count_pos (pyLower content) _ schedule6_keywords_ne_empty.2 hpos
    simp [hne, hmem, hcont]
  · rintro ⟨hle, hpos⟩
    rw [if_neg (by omega)]
    obtain ⟨hmem, hcont, hne⟩ :=
      firstMatch_of_count_pos (pyLower content) _ schedule6_keywords_ne_empty.1 hpos
    simp [hne, hmem, hcont]

/-- Witness for the amended C5: three occurrences of the TRANSITORY
keyword "routine" yield TRANSITORY with confidence 80. -/
theorem C5_heuristic_amended_witness :
    (heuristic_classify "routine routine routine").modelDetermination = "TRANSITORY" ∧
    (heuristic_classify "routine routine routine").confidenceScore = 80 := by
  have h := (C5_heuristic_amended "routine routine routine").2.2.2 (by decide)
  refine ⟨h.1, ?_⟩
  rw [h.2.1]
  decide

/-- C1 counterexample: a 7-year-old `.txt` file in normal Classification
mode is auto-destroyed with label DESTROY and confidence 100, but its
status is the literal "success" — there is no "destroy-auto" status
anywhere in `classify_file`. -/
theorem C1_destroy_auto_counterexample :
    (classify_file
        ⟨"old.txt", ".txt", "C:/old.txt", some ⟨true, "2017-01-01T00:00:00", 1⟩, "",
          "hello", .requestError "connection refused", some true,
          "2026-01-01T00:00:00"⟩
        "Classification").model_determination = "DESTROY" ∧
    (classify_file
        ⟨"old.txt", ".txt", "C:/old.txt", some ⟨true, "2017-01-01T00:00:00", 1⟩, "",
          "hello", .requestError "connection refused", some true,
          "2026-01-01T00:00:00"⟩
        "Classification").confidence_score = 100 ∧
    (classify_file
        ⟨"old.txt", ".txt", "C:/old.txt", some ⟨true, "2017-01-01T00:00:00", 1⟩, "",
          "hello", .requestError "connection refused", some true,
          "2026-01-01T00:00:00"⟩
        "Classification").status = "success" ∧
    (classify_file
        ⟨"old.txt", ".txt", "C:/old.txt", some ⟨true, "2017-01-01T00:00:00", 1⟩, "",
          "hello", .requestError "connection refused", some true,
          "2026-01-01T00:00:00"⟩
        "Classification").status ≠ "destroy-auto" := by
  decide

/-- C1 amended: for every file whose extension survives the exclusion and
inclusion checks, if the mtime is past the 6-year threshold then
`classify_file` in Classification mode returns label DESTROY with
confidence 100 and status "success" (not "destroy-auto"), independently of
the file's content and of the LLM response; the age check precedes the
model call, but runs after the extension checks and the content read. -/
theorem C1_auto_destroy_amended (env : Env) (st : FileStat)
    (h1 : env.stat = some st) (h2 : st.mtimeOld = true)
    (h3 : pyLower env.path_suffix ∉ EXCLUDE_EXT)
    (h4 : pyLower env.path_suffix ∈ INCLUDE_EXT) :
    (classify_file env "Classification").model_determination = "DESTROY" ∧
    (classify_file env "Classification").confidence_score = 100 ∧
    (classify_file env "Classification").status = "success" ∧
    (classify_file env "Classification").contextual_insights =
      "Older than 6 years - automatic destroy" := by
  simp [classify_file, h1, h2, h3, h4]

/-- Witness for the amended C1 at the 7-year-old `.txt` file. -/
theorem C1_auto_destroy_amended_witness :
    (classify_file
        ⟨"old.txt", ".txt", "C:/old.txt", some ⟨true, "2017-01-01T00:00:00", 1⟩, "",
          "hello", .requestError "connection refused", some true,
          "2026-01-01T00:00:00"⟩
        "Classification").model_determination = "DESTROY" ∧
    (classify_file
        ⟨"old.txt", ".txt", "C:/old.txt", some ⟨true, "2017-01-01T00:00:00", 1⟩, "",
          "hello", .requestError "connection refused", some true,
          "2026-01-01T00:00:00"⟩
        "Classification").confidence_score = 100 ∧
    (classify_file
        ⟨"old.txt", ".txt", "C:/old.txt", some ⟨true, "2017-01-01T00:00:00", 1⟩, "",
          "hello", .requestError "connection refused", some true,
          "2026-01-01T00:00:00"⟩
        "Classification").status = "success" ∧
    (classify_file
        ⟨"old.txt", ".txt", "C:/old.txt", some ⟨true, "2017-01-01T00:00:00", 1⟩, "",
          "hello", .requestError "connection refused", some true,
          "2026-01-01T00:00:00"⟩
        "Classification").contextual_insights = "Older than 6 years - automatic destroy" :=
  C1_auto_destroy_amended _ _ rfl rfl (by decide) (by decide)

/-- C2 counterexample: a 7-year-old `.exe` file is reported SKIP with
status "skipped" by `classify_file`, not DESTROY — the type check runs
before the age check. -/
theorem C2_order_counterexample :
    (classify_file
        ⟨"old.exe", ".exe", "C:/old.exe", some ⟨true, "2017-01-01T00:00:00", 1⟩, "",
          "binary", .requestError "connection refused", some true,
          "2026-01-01T00:00:00"⟩
        "Classification").model_determination = "SKIP" ∧
    (classify_file
        ⟨"old.exe", ".exe", "C:/old.exe", some ⟨true, "2017-01-01T00:00:00", 1⟩, "",
          "binary", .requestError "connection refused", some true,
          "2026-01-01T00:00:00"⟩
        "Classification").model_determination ≠ "DESTROY" ∧
    (classify_file
        ⟨"old.exe", ".exe", "C:/old.exe", some ⟨true, "2017-01-01T00:00:00", 1⟩, "",
          "binary", .requestError "connection refused", some true,
          "2026-01-01T00:00:00"⟩
        "Classification").status = "skipped" := by
  decide

/-- C2 amended: in `classify_file` the file-type check is evaluated
strictly *before* the retention-age check, so a file that is both past the
destroy threshold and of an excluded extension is reported SKIP (status
"skipped"), never DESTROY; only `FileScanner._categorize_file` evaluates
age before type and categorizes such a file as destroy. -/
theorem C2_order_amended (env : Env) (st : FileStat) (run_mode : String) (ext : String)
    (h1 : env.stat = some st) (h2 : st.mtimeOld = true)
    (h3 : pyLower env.path_suffix ∈ EXCLUDE_EXT) :
    ((classify_file env run_mode).model_determination = "SKIP" ∧
     (classify_file env run_mode).status = "skipped" ∧
     (classify_file env run_mode).model_determination ≠ "DESTROY") ∧
    file_scanner.categorize_file true ext =
      ("destroy", "Older than 6 years - automatic destroy") := by
  constructor
  · simp [classify_file, h1, h3]
  · rfl

/-- Witness for the amended C2 at the 7-year-old `.exe` file. -/
theorem C2_order_amended_witness :
    ((classify_file
        ⟨"old.exe", ".exe", "C:/old.exe", some ⟨true, "2017-01-01T00:00:00", 1⟩, "",
          "binary", .requestError "connection refused", some true,
          "2026-01-01T00:00:00"⟩
        "Classification").model_determination = "SKIP" ∧
     (classify_file
        ⟨"old.exe", ".exe", "C:/old.exe", some ⟨true, "2017-01-01T00:00:00", 1⟩, "",
          "binary", .requestError "connection refused", some true,
          "2026-01-01T00:00:00"⟩
        "Classification").status = "skipped" ∧
     (classify_file
        ⟨"old.exe", ".exe", "C:/old.exe", some ⟨true, "2017-01-01T00:00:00", 1⟩, "",
          "binary", .requestError "connection refused", some true,
          "2026-01-01T00:00:00"⟩
        "Classification").model_determination ≠ "DESTROY") ∧
    file_scanner.categorize_file true ".exe" =
      ("destroy", "Older than 6 years - automatic destroy") :=
  C2_order_amended _ _ "Classification" ".exe" rfl rfl (by decide)

/-- C10: an extension in the engine's exclusion list dominates every other
rule of `classify_file` — the result is SKIP / "skipped" / 100 for every
run mode, every content, every LLM response and every file age (old files
included); and `.log` sits in both the exclusion list and the inclusion
allow-list. -/
theorem C10_exclusion_dominates (env : Env) (st : FileStat) (run_mode : String)
    (h1 : env.stat = some st)
    (h3 : pyLower env.path_suffix ∈ EXCLUDE_EXT) :
    (classify_file env run_mode).model_determination = "SKIP" ∧
    (classify_file env run_mode).status = "skipped" ∧
    (classify_file env run_mode).confidence_score = 100 ∧
    ".log" ∈ EXCLUDE_EXT ∧ ".log" ∈ INCLUDE_EXT := by
  refine ⟨?_, ?_, ?_, by decide, by decide⟩ <;> simp [classify_file, h1, h3]

/-- Witness for C10: a 7-year-old `.log` file in Classification mode. -/
theorem C10_exclusion_dominates_witness :
    (classify_file
        ⟨"old.log", ".log", "C:/old.log", some ⟨true, "2015-01-01T00:00:00", 1⟩, "",
          "log text", .requestError "connection refused", some true,
          "2026-01-01T00:00:00"⟩
        "Classification").model_determination = "SKIP" ∧
    (classify_file
        ⟨"old.log", ".log", "C:/old.log", some ⟨true, "2015-01-01T00:00:00", 1⟩, "",
          "log text", .requestError "connection refused", some true,
          "2026-01-01T00:00:00"⟩
        "Classification").status = "skipped" ∧
    (classify_file
        ⟨"old.log", ".log", "C:/old.log", some ⟨true, "2015-01-01T00:00:00", 1⟩, "",
          "log text", .requestError "connection refused", some true,
          "2026-01-01T00:00:00"⟩
        "Classification").confidence_score = 100 ∧
    ".log" ∈ EXCLUDE_EXT ∧ ".log" ∈ INCLUDE_EXT :=
  C10_exclusion_dominates _ _ "Classification" rfl (by decide)

/-- C6: `classify_file` is a total function — every call yields exactly one
`ClassificationResult` whose `confidence_score` is an integer in [0,100],
and the modelled pipeline exception (a raising `stat`) is converted into a
terminal result with status "error", label ERROR, confidence 0 and the
truncated exception message as rationale. -/
theorem C6_total_invariants (env : Env) (run_mode : String) :
    (0 ≤ (classify_file env run_mode).confidence_score ∧
      (classify_file env run_mode).confidence_score ≤ 100) ∧
    (env.stat = none →
      (classify_file env run_mode).status = "error" ∧
      (classify_file env run_mode).model_determination = "ERROR" ∧
      (classify_file env run_mode).confidence_score = 0 ∧
      ∃ m : String, (classify_file env run_mode).contextual_insights =
        "Processing error: " ++ pyTake m 200) := by
  cases henv : env.stat with
  | none =>
    refine ⟨by simp [classify_file, henv], fun _ => ?_⟩
    refine ⟨by simp [classify_file, henv], by simp [classify_file, henv],
      by simp [classify_file, henv], ?_⟩
    simp only [classify_file, henv]
    exact ⟨if pyContains env.statErrMsg "await" = true ∧
        pyContains env.statErrMsg "expression" = true then
        env.statErrMsg ++ " - asynchronous call failed" else env.statErrMsg, rfl⟩
  | some st =>
    refine ⟨?_, fun hcontra => absurd hcontra (by simp)⟩
    simp only [classify_file, henv]
    split_ifs <;> first
      | exact hybrid_confidence_bounds _ _ _ _
      | norm_num

/-- Witness for C6 at a file whose `stat` raises. -/
theorem C6_total_invariants_witness :
    (0 ≤ (classify_file
        ⟨"ghost.txt", ".txt", "C:/ghost.txt", none, "file not found", "",
          .requestError "refused", none, "2026-01-01T00:00:00"⟩
        "Classification").confidence_score ∧
      (classify_file
        ⟨"ghost.txt", ".txt", "C:/ghost.txt", none, "file not found", "",
          .requestError "refused", none, "2026-01-01T00:00:00"⟩
        "Classification").confidence_score ≤ 100) ∧
    ((classify_file
        ⟨"ghost.txt", ".txt", "C:/ghost.txt", none, "file not found", "",
          .requestError "refused", none, "2026-01-01T00:00:00"⟩
        "Classification").status = "error" ∧
     (classify_file
        ⟨"ghost.txt", ".txt", "C:/ghost.txt", none, "file not found", "",
          .requestError "refused", none, "2026-01-01T00:00:00"⟩
        "Classification").model_determination = "ERROR" ∧
     (classify_file
        ⟨"ghost.txt", ".txt", "C:/ghost.txt", none, "file not found", "",
          .requestError "refused", none, "2026-01-01T00:00:00"⟩
        "Classification").confidence_score = 0 ∧
     ∃ m : String, (classify_file
        ⟨"ghost.txt", ".txt", "C:/ghost.txt", none, "file not found", "",
          .requestError "refused", none, "2026-01-01T00:00:00"⟩
        "Classification").contextual_insights = "Processing error: " ++ pyTake m 200) :=
  ⟨(C6_total_invariants _ "Classification").1, (C6_total_invariants _ "Classification").2 rfl⟩

/-- C9: the heuristic fallback classifier can only return KEEP (for
OFFICIAL) or TRANSITORY — never DESTROY, ARCHIVE or ERROR — and therefore
every `classify_file` result with status "fallback" carries a KEEP or
TRANSITORY label. -/
theorem C9_fallback_labels (content : String) (env : Env) (run_mode : String) :
    ((heuristic_classify content).modelDetermination = "KEEP" ∨
     (heuristic_classify content).modelDetermination = "TRANSITORY") ∧
    ((classify_file env run_mode).status = "fallback" →
      (classify_file env run_mode).model_determination = "KEEP" ∨
      (classify_file env run_mode).model_determination = "TRANSITORY") := by
  refine ⟨heuristic_classify_determination content, fun hs => ?_⟩
  cases henv : env.stat with
  | none => simp [classify_file, henv] at hs
  | some st =>
    simp only [classify_file, henv] at hs ⊢
    by_cases hexc : EXCLUDE_EXT.contains (pyLower env.path_suffix) = true
    · rw [if_pos hexc] at hs
      simp at hs
    · rw [if_neg hexc] at hs ⊢
      by_cases hinc : INCLUDE_EXT.contains (pyLower env.path_suffix) = true
      · rw [if_neg (not_not_intro hinc)] at hs ⊢
        by_cases hrm : run_mode = "Last Modified"
        · rw [if_pos hrm] at hs
          by_cases hold : st.mtimeOld = true
          · rw [if_pos hold] at hs
            simp at hs
          · rw [if_neg hold] at hs
            simp at hs
        · rw [if_neg hrm] at hs ⊢
          by_cases hold : st.mtimeOld = true
          · rw [if_pos hold] at hs
            simp at hs
          · rw [if_neg hold] at hs ⊢
            by_cases hp : (classify_with_llm env.llmResp env.content).2 = true
            · have hdet := classify_with_llm_fallback env.llmResp env.content hp
              simpa [hdet] using heuristic_classify_determination env.content
            · simp [hp] at hs
      · rw [if_pos (by simpa using hinc)] at hs
        simp at hs

/-- Witness for C9 at a fresh `.txt` file with an unreachable LLM. -/
theorem C9_fallback_labels_witness :
    (classify_file
        ⟨"note.txt", ".txt", "C:/note.txt", some ⟨false, "2025-06-01T00:00:00", 1⟩, "",
          "a quick note", .requestError "connection refused", some false,
          "2026-01-01T00:00:00"⟩
        "Classification").model_determination = "KEEP" ∨
    (classify_file
        ⟨"note.txt", ".txt", "C:/note.txt", some ⟨false, "2025-06-01T00:00:00", 1⟩, "",
          "a quick note", .requestError "connection refused", some false,
          "2026-01-01T00:00:00"⟩
        "Classification").model_determination = "TRANSITORY" :=
  (C9_fallback_labels "a quick note"
      ⟨"note.txt", ".txt", "C:/note.txt", some ⟨false, "2025-06-01T00:00:00", 1⟩, "",
        "a quick note", .requestError "connection refused", some false,
        "2026-01-01T00:00:00"⟩
      "Classification").2 (by decide)

end classification_engine_fixed

/-- C7: for every record produced by the success path of
`classify_with_model`, recomputing the hybrid confidence from the stored
`model_confidence`, `text` and `label` reproduces the stored
`hybrid_confidence` exactly, so the validator's mismatch check (tolerance
0.01) never fires on a record the pipeline itself produced. -/
theorem C7_roundtrip (label : String) (score : ℚ) (notes content timestamp source_file : String) :
    model_output_validation.hybrid_confidence
        (llm_engine.classify_with_model label score notes content timestamp
          source_file).classification_details.model_confidence
        (llm_engine.classify_with_model label score notes content timestamp source_file).text
        (llm_engine.classify_with_model label score notes content timestamp source_file).label =
      (llm_engine.classify_with_model label score notes content timestamp
        source_file).classification_details.hybrid_confidence ∧
    |model_output_validation.hybrid_confidence
        (llm_engine.classify_with_model label score notes content timestamp
          source_file).classification_details.model_confidence
        (llm_engine.classify_with_model label score notes content timestamp source_file).text
        (llm_engine.classify_with_model label score notes content timestamp source_file).label -
      (llm_engine.classify_with_model label score notes content timestamp
        source_file).classification_details.hybrid_confidence| ≤ 1 / 100 := by
  have hfields :
      (llm_engine.classify_with_model label score notes content timestamp
        source_file).classification_details.model_confidence = score ∧
      (llm_engine.classify_with_model label score notes content timestamp
        source_file).text = content ∧
      (llm_engine.classify_with_model label score notes content timestamp
        source_file).label = label ∧
      (llm_engine.classify_with_model label score notes content timestamp
        source_file).classification_details.hybrid_confidence =
        model_output_validation.hybrid_confidence score content label := by
    simp only [llm_engine.classify_with_model]
    split <;> simp
  obtain ⟨h1, h2, h3, h4⟩ := hfields
  rw [h1, h2, h3, h4]
  refine ⟨rfl, ?_⟩
  rw [sub_self, abs_zero]
  norm_num

/-- C8 counterexample: a record whose hybrid confidence is below 0.7 but
which asserts `validation_passed = true` sails through
`fully_validate_model_output` with no violation at all — the "vice versa"
direction of the claim is not checked. -/
theorem C8_validation_flag_counterexample :
    model_output_validation.fully_validate_model_output
        ⟨"TRANSITORY", 1 / 2, "", "", "", ⟨"Schedule 6", [], 7 / 20, 1 / 2, 0, true, ""⟩,
          none⟩ = none ∧
    (⟨"TRANSITORY", 1 / 2, "", "", "", ⟨"Schedule 6", [], 7 / 20, 1 / 2, 0, true, ""⟩,
        none⟩ : ModelOutput).classification_details.hybrid_confidence < 7 / 10 ∧
    (⟨"TRANSITORY", 1 / 2, "", "", "", ⟨"Schedule 6", [], 7 / 20, 1 / 2, 0, true, ""⟩,
        none⟩ : ModelOutput).classification_details.validation_passed = true := by
  refine ⟨?_, by norm_num, rfl⟩
  have hcount : (model_output_validation.keywordsFor "TRANSITORY").countP
      (fun kw => pyContains (pyLower "") kw) = 0 := by decide
  have hkc : model_output_validation.compute_keyword_confidence "" "TRANSITORY" = 0 := by
    simp only [model_output_validation.compute_keyword_confidence,
      show pyUpper "TRANSITORY" = "TRANSITORY" from rfl, hcount]
    norm_num
  have hhc : model_output_validation.hybrid_confidence (1 / 2) "" "TRANSITORY" = 7 / 20 := by
    unfold model_output_validation.hybrid_confidence
    rw [hkc]
    norm_num
  unfold model_output_validation.fully_validate_model_output
  rw [if_neg (by norm_num), if_neg (by norm_num), if_neg (by norm_num), if_neg (by norm_num),
    if_neg (by rw [hhc]; norm_num), if_neg (by decide), if_neg (by simp), if_neg (by norm_num)]

/-- C8 amended: on every record that passes `fully_validate_model_output`,
a hybrid confidence ≥ 0.7 implies `validation_passed = true`; the validator
flags only a high-confidence record asserting failure, while a
low-confidence record asserting success is not reported. -/
theorem C8_validation_flag_amended (o : ModelOutput)
    (hv : model_output_validation.fully_validate_model_output o = none)
    (hc : 7 / 10 ≤ o.classification_details.hybrid_confidence) :
    o.classification_details.validation_passed = true := by
  cases hvp : o.classification_details.validation_passed with
  | true => rfl
  | false =>
    exfalso
    unfold model_output_validation.fully_validate_model_output at hv
    split_ifs at hv with hv1 hv2 hv3 hv4 hv5 hv6 hv7 hv8
    exact hv8 ⟨hc, hvp⟩

/-- Witness for the amended C8 at a passing record with hybrid confidence
exactly 0.7. -/
theorem C8_validation_flag_amended_witness :
    (⟨"TRANSITORY", 1, "", "", "", ⟨"Schedule 6", [], 7 / 10, 1, 0, true, ""⟩,
        none⟩ : ModelOutput).classification_details.validation_passed = true := by
  refine C8_validation_flag_amended _ ?_ (by norm_num)
  have hcount : (model_output_validation.keywordsFor "TRANSITORY").countP
      (fun kw => pyContains (pyLower "") kw) = 0 := by decide
  have hkc : model_output_validation.compute_keyword_confidence "" "TRANSITORY" = 0 := by
    simp only [model_output_validation.compute_keyword_confidence,
      show pyUpper "TRANSITORY" = "TRANSITORY" from rfl, hcount]
    norm_num
  have hhc : model_output_validation.hybrid_confidence 1 "" "TRANSITORY" = 7 / 10 := by
    unfold model_output_validation.hybrid_confidence
    rw [hkc]
    norm_num
  unfold model_output_validation.fully_validate_model_output
  rw [if_neg (by norm_num), if_neg (by norm_num), if_neg (by norm_num), if_neg (by norm_num),
    if_neg (by rw [hhc]; norm_num), if_neg (by decide), if_neg (by simp), if_neg (by norm_num)]

end RecordsClassifier
